import Mathlib

/-
Shallow embedding of the carmen plant-analysis pipeline.

Sources embedded here:
- src/app/nodes/light_node.py       (light comparator)
- src/app/nodes/temperature.py      (temperature comparator)
- src/app/nodes/history_node.py     (calculate_trend, history)
- src/app/agent.py, lines 269-369   (response normalization and persistence)
- src/app/models.py                 (AnalysisResponse, pydantic validation)

Python floats are modelled as exact rationals; Python round() (banker's
rounding, half to even) is modelled exactly on rationals.  External
collaborators (json.loads, ast.literal_eval, the database session, the
LLM) are passed in as explicit oracles/outcomes, mirroring the spec's
"external collaborator" boundaries.
-/

namespace Carmen

/-- Python round-half-to-even on a rational, to the nearest integer. -/
def roundHalfEven (q : ℚ) : ℤ :=
  let f := Int.floor q
  let r := q - f
  if r < 1/2 then f
  else if r > 1/2 then f + 1
  else if Even f then f else f + 1

/-- Python round(x, 2). -/
def round2 (q : ℚ) : ℚ := (roundHalfEven (q * 100) : ℚ) / 100

/-- Python round(x, 1). -/
def round1 (q : ℚ) : ℚ := (roundHalfEven (q * 10) : ℚ) / 10

/-- Numeric rendering used in comparator message strings (abstracts Python
float formatting; no claim depends on the rendered digits). -/
def fmt (q : ℚ) : String := toString q

/-- A banded ideal condition: the "light"/"temperature" entries of
ideal_conditions in app/data/plants_ideal.json: min, max, ideal. -/
structure Band where
  min : ℚ
  max : ℚ
  ideal : ℚ
deriving DecidableEq

/-- The banded part of one plant's catalog entry (the parts of the
load_plant_data result consulted by the light and temperature nodes;
the catalog JSON file itself is external data, so the looked-up profile
is passed to the node functions as an argument). -/
structure PlantProfile where
  light_conditions : Band
  temperature_conditions : Band
  light_tolerance : ℚ
  temperature_tolerance : ℚ
deriving DecidableEq

/-- The comparison dict returned by the light / temperature nodes. -/
structure Verdict where
  parameter : String
  current : ℚ
  ideal : Band
  difference : ℚ
  status : String
  message : String
deriving DecidableEq

/-- light node, src/app/nodes/light_node.py lines 33-80. -/
def light (plant : PlantProfile) (value : ℚ) : Verdict :=
  let ideal_conditions := plant.light_conditions
  let tolerance := plant.light_tolerance
  let min_light := ideal_conditions.min
  let max_light := ideal_conditions.max
  let ideal_light := ideal_conditions.ideal
  let difference := value - ideal_light
  let status :=
    if min_light ≤ value ∧ value ≤ max_light then "OK"
    else if |difference| ≤ tolerance then "OK"
    else "ALERT"
  let message :=
    if status = "OK" then
      if |difference| ≤ tolerance then
        "Luminosité optimale (" ++ fmt value ++ " lux, idéal: " ++ fmt ideal_light ++ " lux)"
      else
        "Luminosité acceptable (" ++ fmt value ++ " lux, plage: " ++ fmt min_light ++ "-" ++ fmt max_light ++ " lux)"
    else
      if value < min_light then
        "Luminosité trop faible (" ++ fmt value ++ " lux, minimum: " ++ fmt min_light ++ " lux, idéal: " ++ fmt ideal_light ++ " lux)"
      else if value > max_light then
        "Luminosité trop élevée (" ++ fmt value ++ " lux, maximum: " ++ fmt max_light ++ " lux, idéal: " ++ fmt ideal_light ++ " lux)"
      else
        "Luminosité hors tolérance (" ++ fmt value ++ " lux, idéal: " ++ fmt ideal_light ++ " lux, tolérance: ±" ++ fmt tolerance ++ " lux)"
  { parameter := "light", current := value, ideal := ideal_conditions,
    difference := difference, status := status, message := message }

/-- temperature node, src/app/nodes/temperature.py lines 33-80. -/
def temperature (plant : PlantProfile) (value : ℚ) : Verdict :=
  let ideal_conditions := plant.temperature_conditions
  let tolerance := plant.temperature_tolerance
  let min_temp := ideal_conditions.min
  let max_temp := ideal_conditions.max
  let ideal_temp := ideal_conditions.ideal
  let difference := value - ideal_temp
  let status :=
    if min_temp ≤ value ∧ value ≤ max_temp then "OK"
    else if |difference| ≤ tolerance then "OK"
    else "ALERT"
  let message :=
    if status = "OK" then
      if |difference| ≤ tolerance then
        "Température optimale (" ++ fmt value ++ "°C, idéal: " ++ fmt ideal_temp ++ "°C)"
      else
        "Température acceptable (" ++ fmt value ++ "°C, plage: " ++ fmt min_temp ++ "-" ++ fmt max_temp ++ "°C)"
    else
      if value < min_temp then
        "Température trop basse (" ++ fmt value ++ "°C, minimum: " ++ fmt min_temp ++ "°C, idéal: " ++ fmt ideal_temp ++ "°C)"
      else if value > max_temp then
        "Température trop élevée (" ++ fmt value ++ "°C, maximum: " ++ fmt max_temp ++ "°C, idéal: " ++ fmt ideal_temp ++ "°C)"
      else
        "Température hors tolérance (" ++ fmt value ++ "°C, idéal: " ++ fmt ideal_temp ++ "°C, tolérance: ±" ++ fmt tolerance ++ "°C)"
  { parameter := "temperature", current := value, ideal := ideal_conditions,
    difference := difference, status := status, message := message }

/-- The dict returned by calculate_trend.  The two return shapes of the
Python function are merged into one record: change_percent and
average_historical are absent (none) exactly in the insufficient_data
branch. -/
structure TrendInfo where
  direction : String
  change : ℚ
  change_percent : Option ℚ
  average_historical : Option ℚ
  period : String
deriving DecidableEq

/-- calculate_trend, src/app/nodes/history_node.py lines 19-56. -/
def calculate_trend (values : List ℚ) (current_value : ℚ) : TrendInfo :=
  if values.length < 2 then
    { direction := "insufficient_data", change := 0,
      change_percent := none, average_historical := none, period := "N/A" }
  else
    let avg_historical := values.sum / (values.length : ℚ)
    let change := current_value - avg_historical
    let change_percent := if avg_historical > 0 then change / avg_historical * 100 else 0
    let direction :=
      if |change_percent| < 2 then "stable"
      else if change > 0 then "increasing"
      else "decreasing"
    { direction := direction, change := round2 change,
      change_percent := some (round2 change_percent),
      average_historical := some (round2 avg_historical),
      period := toString values.length ++ " analyses" }

/-- One persisted PlantAnalysis row, as consumed by the history node
(src/app/database.py lines 37-60).  The timestamp is in days since an
epoch, as a rational; timedelta.days of a difference is its floor. -/
structure PlantAnalysisRec where
  timestamp : ℚ
  humidity : ℚ
  light : ℚ
  temperature : ℚ
  status : String
deriving DecidableEq

/-- The trends dict of the history result: per-metric key, present only
when the corresponding guard in the Python code fires. -/
structure Trends where
  humidity : Option TrendInfo
  light : Option TrendInfo
  temperature : Option TrendInfo
deriving DecidableEq

/-- The summary dict of the history result.  Keys absent from a given
Python return shape are modelled as none. -/
structure HSummary where
  total_analyses : ℕ
  message : Option String
  alert_count : Option ℕ
  alert_percentage : Option ℚ
  last_alert_date : Option ℚ
  time_span_days : Option ℤ
  average_values : Option (ℚ × ℚ × ℚ)
  most_recent_date : Option ℚ
deriving DecidableEq

/-- The dict returned by the history node. -/
structure HistoryResult where
  has_history : Bool
  recent_analyses : List PlantAnalysisRec
  trends : Trends
  summary : HSummary
deriving DecidableEq

/-- history node, src/app/nodes/history_node.py lines 59-207.

The database fetch (get_db + the query, newest first, already limited)
is an external collaborator: its outcome is the argument.  An
Except.error models any exception raised while fetching; the except
branch of the Python function turns it into the has_history=false
result.  Everything after the fetch is computed exactly as in the
source (values are collected newest-first, reversed to chronological
order, the last chronological value is taken as "current" and the rest
as the historical baseline). -/
def historyModel (fetch : Except String (List PlantAnalysisRec)) : HistoryResult :=
  match fetch with
  | .error e =>
    { has_history := false, recent_analyses := [],
      trends := { humidity := none, light := none, temperature := none },
      summary := { total_analyses := 0,
                   message := some ("Error retrieving history: " ++ e),
                   alert_count := none, alert_percentage := none,
                   last_alert_date := none, time_span_days := none,
                   average_values := none, most_recent_date := none } }
  | .ok [] =>
    { has_history := false, recent_analyses := [],
      trends := { humidity := none, light := none, temperature := none },
      summary := { total_analyses := 0,
                   message := some "No historical data available",
                   alert_count := none, alert_percentage := none,
                   last_alert_date := none, time_span_days := none,
                   average_values := none, most_recent_date := none } }
  | .ok (newest :: rest) =>
    let analyses := newest :: rest
    let humidity_values := (analyses.map (·.humidity)).reverse
    let light_values := (analyses.map (·.light)).reverse
    let temperature_values := (analyses.map (·.temperature)).reverse
    let alert_count := (analyses.filter (fun a => a.status = "ALERT")).length
    let last_alert_date := (analyses.find? (fun a => a.status = "ALERT")).map (·.timestamp)
    let trends : Trends :=
      { humidity :=
          if humidity_values.length > 1 then
            some (calculate_trend humidity_values.dropLast (humidity_values.getLastD 0))
          else none,
        light :=
          if light_values.length > 1 then
            some (calculate_trend light_values.dropLast (light_values.getLastD 0))
          else none,
        temperature :=
          if temperature_values.length > 1 then
            some (calculate_trend temperature_values.dropLast (temperature_values.getLastD 0))
          else none }
    let total_analyses := analyses.length
    let avg_humidity := if humidity_values.isEmpty then 0 else humidity_values.sum / (humidity_values.length : ℚ)
    let avg_light := if light_values.isEmpty then 0 else light_values.sum / (light_values.length : ℚ)
    let avg_temperature := if temperature_values.isEmpty then 0 else temperature_values.sum / (temperature_values.length : ℚ)
    let time_span_days : ℤ :=
      if analyses.length > 1 then
        let d := Int.floor (newest.timestamp - (analyses.getLastD newest).timestamp)
        if d > 0 then d else 1
      else 1
    { has_history := true,
      recent_analyses := analyses,
      trends := trends,
      summary := { total_analyses := total_analyses,
                   message := none,
                   alert_count := some alert_count,
                   alert_percentage :=
                     some (if total_analyses > 0 then round1 ((alert_count : ℚ) / (total_analyses : ℚ) * 100) else 0),
                   last_alert_date := last_alert_date,
                   time_span_days := some time_span_days,
                   average_values := some (round2 avg_humidity, round2 avg_light, round2 avg_temperature),
                   most_recent_date := some newest.timestamp } }

/-- A decoded JSON value (the possible shapes of fields of the object
produced by json.loads on the brace-delimited slice of the LLM
response).  Numbers are modelled as integers: no claim depends on
non-integer JSON numbers. -/
inductive JValue where
  | jnull : JValue
  | jbool : Bool → JValue
  | jnum : ℤ → JValue
  | jstr : String → JValue
  | jarr : List JValue → JValue
  | jobj : List (String × JValue) → JValue

/-- A decoded JSON object: its fields, assumed key-unique (Python dict). -/
abbrev JObj := List (String × JValue)

/-- Python dict .get: first (only) binding of the key, if present. -/
def objGet (obj : JObj) (key : String) : Option JValue :=
  (obj.find? (fun p => p.1 = key)).map (·.2)

mutual
/-- Python repr() of a decoded JSON value (string escaping inside
repr of strings is abstracted away; no claim depends on it). -/
def pyRepr : JValue → String
  | .jnull => "None"
  | .jbool true => "True"
  | .jbool false => "False"
  | .jnum n => toString n
  | .jstr s => "\x27" ++ s ++ "\x27"
  | .jarr xs => "[" ++ pyReprList xs ++ "]"
  | .jobj fs => "\x7b" ++ pyReprFields fs ++ "\x7d"

/-- Comma-separated reprs of the elements of a list. -/
def pyReprList : List JValue → String
  | [] => ""
  | [x] => pyRepr x
  | x :: xs => pyRepr x ++ ", " ++ pyReprList xs

/-- Comma-separated reprs of the fields of a dict. -/
def pyReprFields : List (String × JValue) → String
  | [] => ""
  | [f] => "\x27" ++ f.1 ++ "\x27: " ++ pyRepr f.2
  | f :: fs => "\x27" ++ f.1 ++ "\x27: " ++ pyRepr f.2 ++ ", " ++ pyReprFields fs
end

/-- Python str() of a decoded JSON value: the string itself for str,
repr otherwise (as str() does for None/bool/int/list/dict). -/
def pyStr : JValue → String
  | .jstr s => s
  | v => pyRepr v

/-- Python str-list coercion prerequisite of str.join: each element must
be a str, else join raises TypeError (checked left to right). -/
def asPyStrs : List JValue → Except String (List String)
  | [] => .ok []
  | .jstr s :: rest => do
      let t ← asPyStrs rest
      .ok (s :: t)
  | _ :: _ => .error "TypeError: sequence item: expected str instance"

/-- Python sep.join(xs): intercalation, after the all-str check. -/
def pyJoinStrs (sep : String) (xs : List JValue) : Except String String := do
  let ss ← asPyStrs xs
  .ok (String.intercalate sep ss)

/-- The list branch of the action coercion, src/app/agent.py lines
297-306 (also reused on the ast.literal_eval result at lines 324-331):
empty list, one-element list, and the join-based multi-element
sentence.  The join over all but the last element raises TypeError when
one of those elements is not a string; the last element goes through an
f-string (str()). -/
def coerceList : List JValue → Except String String
  | [] => .ok "No action needed"
  | [x] => .ok ("Take action: " ++ pyStr x)
  | xs => do
      let joined ← pyJoinStrs ", " xs.dropLast
      .ok ("Take multiple actions: " ++ joined ++ " and " ++ pyStr (xs.getLastD .jnull))

/-- Opening brace character. -/
def obraceChar : Char := Char.ofNat 123

/-- Closing brace character. -/
def cbraceChar : Char := Char.ofNat 125

/-- Test of src/app/agent.py line 271: both an opening and a closing
brace occur somewhere in the response. -/
def hasBraces (s : String) : Bool :=
  s.toList.contains obraceChar && s.toList.contains cbraceChar

/-- The slice response[start:end] with start = response.find(brace) and
end = response.rfind(brace)+1, src/app/agent.py lines 272-274.  When
the last closing brace precedes the first opening brace the Python
slice is empty; natural subtraction reproduces that. -/
def sliceJson (s : String) : String :=
  match s.toList.findIdx? (· = obraceChar), s.toList.reverse.findIdx? (· = cbraceChar) with
  | some i, some j => String.mk ((s.toList.drop i).take (s.toList.length - j - i))
  | _, _ => s

/-- The fallback candidate dict, src/app/agent.py lines 279-283 and
287-291: status OK, the raw response as message, and the literal
sentinel string "aucune" as action. -/
def fallbackResult (response : String) : JObj :=
  [("status", .jstr "OK"), ("message", .jstr response), ("action", .jstr "aucune")]

/-- Structural extraction stage of the normalizer, src/app/agent.py
lines 269-291.  json.loads is an external library call: loads is the
oracle giving its outcome on the sliced string (none = JSONDecodeError;
a slice that starts with an opening brace and ends with a closing brace
can only decode to an object). -/
def candidateResult (response : String) (loads : String → Option JObj) : JObj :=
  if hasBraces response then
    match loads (sliceJson response) with
    | some obj => obj
    | none => fallbackResult response
  else fallbackResult response

/-- Double-quote character. -/
def dquoteChar : Char := '"'

/-- Single-quote character. -/
def squoteChar : Char := Char.ofNat 39

/-- Opening square bracket. -/
def obracketChar : Char := '['

/-- Closing square bracket. -/
def cbracketChar : Char := ']'

/-- Python str.strip() whitespace set (the ASCII part; no claim
involves non-ASCII whitespace). -/
def isPySpace (c : Char) : Bool :=
  c = ' ' || c = '\t' || c = '\n' || c = '\r' || c = Char.ofNat 11 || c = Char.ofNat 12

/-- Python str.strip(): whitespace removed from both ends. -/
def pyStrip (s : String) : String :=
  String.mk (((s.toList.dropWhile isPySpace).reverse.dropWhile isPySpace).reverse)

/-- Python s.startswith(c) for a one-character c. -/
def startsWithChar (c : Char) (s : String) : Bool := s.toList.head? = some c

/-- Python s.endswith(c) for a one-character c. -/
def endsWithChar (c : Char) (s : String) : Bool := s.toList.getLast? = some c

/-- Python s[1:-1]. -/
def sliceInner (s : String) : String := String.mk ((s.toList.drop 1).dropLast)

/-- Strip one layer of a surrounding quote: Python
`if v.startswith(q) and v.endswith(q): v = v[1:-1]`
(src/app/agent.py lines 315-318).  On a one-character string equal to
the quote both tests pass and the Python slice is empty, reproduced by
sliceInner. -/
def stripSurrounding (q : Char) (s : String) : String :=
  if startsWithChar q s && endsWithChar q s then sliceInner s else s

/-- First stage of the action-field coercion, src/app/agent.py lines
294-309: the list branch (which can raise a TypeError from the join),
the pass-through for strings, and stringification for anything else. -/
def coerceActionHead : JValue → Except String String
  | .jarr xs => coerceList xs
  | .jstr s => .ok s
  | other => .ok (pyStr other)

/-- Second stage of the action-field coercion, src/app/agent.py lines
311-338: strip whitespace, strip one layer of double then single
quotes, re-parse a bracketed list literal (errors inside that try
block - ast.literal_eval failures and a TypeError from the join on the
parsed list alike - are swallowed by the bare except), and default an
empty final value.  ast.literal_eval is an external library call:
litEval is the oracle for "literal_eval succeeded and returned a list"
(a raised error or a non-list result both leave the string unchanged,
so both map to none). -/
def coerceActionPost (litEval : String → Option (List JValue)) (s0 : String) : String :=
  let s1 := pyStrip s0
  let s2 := stripSurrounding dquoteChar s1
  let s3 := stripSurrounding squoteChar s2
  let s4 :=
    if startsWithChar obracketChar s3 && endsWithChar cbracketChar s3 then
      match litEval s3 with
      | some xs =>
        match coerceList xs with
        | .ok r => r
        | .error _ => s3
      | none => s3
    else s3
  if s4 = "" then "No action needed" else s4

/-- The full action-field coercion, src/app/agent.py lines 293-338.
The only uncaught exception of this stage is the TypeError from the
join in the direct list branch. -/
def coerceAction (v : JValue) (litEval : String → Option (List JValue)) : Except String String := do
  let s0 ← coerceActionHead v
  Except.ok (coerceActionPost litEval s0)

/-- The pipeline's typed result, src/app/models.py lines 27-31. -/
structure AnalysisResponse where
  status : String
  message : String
  action : String
deriving DecidableEq

/-- Construction of AnalysisResponse, src/app/agent.py lines 341-345
together with the pydantic validation of src/app/models.py lines 27-31:
status must equal the literal "OK" or "ALERT", message must be a
string; any other decoded value raises a ValidationError. -/
def mkAnalysisResponse (status message : JValue) (action : String) : Except String AnalysisResponse :=
  match status with
  | .jstr s =>
    if s = "OK" || s = "ALERT" then
      match message with
      | .jstr m => .ok { status := s, message := m, action := action }
      | _ => .error "ValidationError: message must be a string"
    else .error "ValidationError: status must be OK or ALERT"
  | _ => .error "ValidationError: status must be OK or ALERT"

/-- The full response-normalization segment, src/app/agent.py lines
269-345: structural extraction (or fallback), field defaulting
(action -> "No action needed", status -> "OK",
message -> "Analysis completed"), action coercion, and construction of
the validated AnalysisResponse. -/
def normalize (response : String) (loads : String → Option JObj)
    (litEval : String → Option (List JValue)) : Except String AnalysisResponse := do
  let result := candidateResult response loads
  let action ← coerceAction ((objGet result "action").getD (.jstr "No action needed")) litEval
  mkAnalysisResponse ((objGet result "status").getD (.jstr "OK"))
    ((objGet result "message").getD (.jstr "Analysis completed")) action

/-- The tail of process_with_pipeline, src/app/agent.py lines 269-369:
normalization followed by the best-effort save_analysis call.  The
database write is an external collaborator; save gives its outcome on
the computed response.  A save failure is only logged (second
component); the normalized response is returned either way.  An
exception escaping normalization propagates and the save is never
attempted. -/
def processResponseAndSave (response : String) (loads : String → Option JObj)
    (litEval : String → Option (List JValue))
    (save : AnalysisResponse → Except String Unit) :
    Except String AnalysisResponse × List String :=
  match normalize response loads litEval with
  | .error e => (.error e, [])
  | .ok resp =>
    match save resp with
    | .ok _ => (.ok resp, ["Analysis saved to database"])
    | .error e => (.ok resp, ["Failed to save analysis to database: " ++ e])

/-- Modelled from the spec: the claim's description of the trend change -
the current in-flight reading (which per the spec the Orchestrator
passes in) minus the mean of the fetched historical values (spec
section 4.2 step 3). -/
def specTrendChange (fetchedValues : List ℚ) (currentReading : ℚ) : ℚ :=
  currentReading - fetchedValues.sum / (fetchedValues.length : ℚ)

/-- Modelled from the spec: the claim's historical average - the mean of
the fetched historical values. -/
def specAvgHistorical (fetchedValues : List ℚ) : ℚ :=
  fetchedValues.sum / (fetchedValues.length : ℚ)

/-- Safety condition on a decoded action value under which the direct
list branch of the coercion cannot raise: not a list, a list of at most
one element, or a list whose elements - except possibly the last - are
all strings. -/
def actionListSafe : JValue → Prop
  | .jarr xs => xs.length ≤ 1 ∨ (∀ y ∈ xs.dropLast, ∃ s, y = JValue.jstr s)
  | _ => True

/-- json.loads outcome for the response consisting of the single JSON
object with a status field "WARNING". -/
def loadsStatusW : String → Option JObj := fun s =>
  if s = "\x7b\"status\": \"WARNING\"\x7d" then some [("status", JValue.jstr "WARNING")]
  else none

/-- json.loads outcome for the response consisting of the single JSON
object whose action field is the integer list [1, 2]. -/
def loadsActionNums : String → Option JObj := fun s =>
  if s = "\x7b\"action\": [1, 2]\x7d" then
    some [("action", JValue.jarr [JValue.jnum 1, JValue.jnum 2])]
  else none

/-- json.loads outcome for a well-formed alert response used as a
witness input. -/
def loadsAlert : String → Option JObj := fun s =>
  if s = "\x7b\"status\": \"ALERT\", \"message\": \"Soil too dry\", \"action\": [\"water\", \"light\"]\x7d" then
    some [("status", JValue.jstr "ALERT"), ("message", JValue.jstr "Soil too dry"),
          ("action", JValue.jarr [JValue.jstr "water", JValue.jstr "light"])]
  else none

/-! Helper lemmas shared by the claim theorems. -/

lemma asPyStrs_map_jstr (l : List String) : asPyStrs (l.map JValue.jstr) = .ok l := by
  induction l with
  | nil => rfl
  | cons x xs ih =>
    simp only [List.map_cons, asPyStrs, ih]
    rfl

lemma asPyStrs_ok_of_strings (l : List JValue) (h : ∀ y ∈ l, ∃ s, y = JValue.jstr s) :
    ∃ out, asPyStrs l = .ok out := by
  induction l with
  | nil => exact ⟨[], rfl⟩
  | cons x xs ih =>
    obtain ⟨s, rfl⟩ := h x (by simp)
    obtain ⟨out, hout⟩ := ih (fun y hy => h y (by simp [hy]))
    refine ⟨s :: out, ?_⟩
    simp only [asPyStrs, hout]
    rfl

lemma coerceList_cons_cons (a b : JValue) (rest : List JValue) :
    coerceList (a :: b :: rest) =
      (pyJoinStrs ", " ((a :: b :: rest).dropLast)).bind
        (fun joined => Except.ok ("Take multiple actions: " ++ joined ++ " and " ++
          pyStr ((a :: b :: rest).getLastD JValue.jnull))) := rfl

lemma coerceList_ok_of_safe (xs : List JValue)
    (h : xs.length ≤ 1 ∨ (∀ y ∈ xs.dropLast, ∃ s, y = JValue.jstr s)) :
    ∃ out, coerceList xs = .ok out := by
  match xs with
  | [] => exact ⟨"No action needed", rfl⟩
  | [x] => exact ⟨"Take action: " ++ pyStr x, rfl⟩
  | a :: b :: rest =>
    rcases h with h | h
    · simp only [List.length_cons] at h
      omega
    · obtain ⟨out, hout⟩ := asPyStrs_ok_of_strings _ h
      refine ⟨"Take multiple actions: " ++ String.intercalate ", " out ++ " and " ++
        pyStr ((a :: b :: rest).getLastD JValue.jnull), ?_⟩
      rw [coerceList_cons_cons]
      simp only [pyJoinStrs, hout]
      rfl

lemma coerceList_map_jstr_multi (x y : String) (mid : List String) :
    coerceList ((x :: mid ++ [y]).map JValue.jstr) =
      .ok ("Take multiple actions: " ++ String.intercalate ", " (x :: mid) ++ " and " ++ y) := by
  cases mid with
  | nil => rfl
  | cons m ms =>
    have hmap : ((x :: (m :: ms) ++ [y]).map JValue.jstr) =
        JValue.jstr x :: JValue.jstr m :: (ms.map JValue.jstr ++ [JValue.jstr y]) := by
      simp
    rw [hmap, coerceList_cons_cons]
    have h1 : (JValue.jstr x :: JValue.jstr m :: (ms.map JValue.jstr ++ [JValue.jstr y])).dropLast
        = (x :: m :: ms).map JValue.jstr := by
      have : JValue.jstr x :: JValue.jstr m :: (ms.map JValue.jstr ++ [JValue.jstr y])
          = ((x :: m :: ms).map JValue.jstr) ++ [JValue.jstr y] := by simp
      rw [this, List.dropLast_concat]
    have h2 : (JValue.jstr x :: JValue.jstr m :: (ms.map JValue.jstr ++ [JValue.jstr y])).getLastD
        JValue.jnull = JValue.jstr y := by
      have : JValue.jstr x :: JValue.jstr m :: (ms.map JValue.jstr ++ [JValue.jstr y])
          = ((x :: m :: ms).map JValue.jstr) ++ [JValue.jstr y] := by simp
      rw [this, List.getLastD_concat]
    rw [h1, h2]
    simp only [pyJoinStrs, asPyStrs_map_jstr]
    rfl

lemma coerceAction_ok_of_head_ok (v : JValue) (litEval : String → Option (List JValue))
    (s0 : String) (h : coerceActionHead v = .ok s0) :
    coerceAction v litEval = .ok (coerceActionPost litEval s0) := by
  simp only [coerceAction, h]
  rfl

lemma calculate_trend_of_short (values : List ℚ) (c : ℚ) (h : values.length < 2) :
    calculate_trend values c =
      { direction := "insufficient_data", change := 0, change_percent := none,
        average_historical := none, period := "N/A" } := by
  simp [calculate_trend, h]

lemma calculate_trend_direction_cases (values : List ℚ) (c : ℚ) (h : 2 ≤ values.length) :
    (calculate_trend values c).direction = "stable" ∨
    (calculate_trend values c).direction = "increasing" ∨
    (calculate_trend values c).direction = "decreasing" := by
  simp only [calculate_trend, if_neg (Nat.not_lt.mpr h)]
  split_ifs <;> simp

lemma historyModel_trends_cons (newest next : PlantAnalysisRec) (rest : List PlantAnalysisRec) :
    (historyModel (.ok (newest :: next :: rest))).trends =
      { humidity := some (calculate_trend (((next :: rest).map (·.humidity)).reverse) newest.humidity),
        light := some (calculate_trend (((next :: rest).map (·.light)).reverse) newest.light),
        temperature := some (calculate_trend (((next :: rest).map (·.temperature)).reverse) newest.temperature) } := by
  simp only [historyModel, List.map_cons, List.reverse_cons, List.dropLast_concat,
    List.getLastD_concat, List.length_append, List.length_reverse, List.length_map,
    List.length_cons]
  norm_num

lemma historyModel_trends_single (newest : PlantAnalysisRec) :
    (historyModel (.ok [newest])).trends =
      { humidity := none, light := none, temperature := none } := rfl

/-! The claim theorems. -/

/-- Claim C2: for every catalog profile (quantified over all profiles,
which covers every plant_type present in the catalog) and every value,
the light and temperature comparators return status OK exactly when the
value lies in [min, max] or within tolerance of the ideal, and ALERT
otherwise; and the difference field always equals value minus ideal,
never a distance to a band edge. -/
theorem claim_C2_comparators (plant : PlantProfile) (value : ℚ) :
    ((light plant value).status = "OK" ↔
      ((plant.light_conditions.min ≤ value ∧ value ≤ plant.light_conditions.max) ∨
        |value - plant.light_conditions.ideal| ≤ plant.light_tolerance)) ∧
    ((light plant value).status = "ALERT" ↔
      ¬((plant.light_conditions.min ≤ value ∧ value ≤ plant.light_conditions.max) ∨
        |value - plant.light_conditions.ideal| ≤ plant.light_tolerance)) ∧
    (light plant value).difference = value - plant.light_conditions.ideal ∧
    ((temperature plant value).status = "OK" ↔
      ((plant.temperature_conditions.min ≤ value ∧ value ≤ plant.temperature_conditions.max) ∨
        |value - plant.temperature_conditions.ideal| ≤ plant.temperature_tolerance)) ∧
    ((temperature plant value).status = "ALERT" ↔
      ¬((plant.temperature_conditions.min ≤ value ∧ value ≤ plant.temperature_conditions.max) ∨
        |value - plant.temperature_conditions.ideal| ≤ plant.temperature_tolerance)) ∧
    (temperature plant value).difference = value - plant.temperature_conditions.ideal := by
  refine ⟨?_, ?_, rfl, ?_, ?_, rfl⟩ <;>
  · simp only [light, temperature]
    split_ifs with h1 h2 <;> simp_all

/-- Claim C4 counterexample: for the historical window [-4, -6] (mean
-5, a negative mean as with sub-zero temperatures) and current value
-10, the claim's formula change / avgHistorical * 100 gives 100, but
the code stores change_percent = 0 (and consequently direction
"stable"): the code zeroes change_percent whenever the mean is not
strictly positive, not only when it is zero. -/
theorem claim_C4_counterexample :
    (calculate_trend [-4, -6] (-10)).change_percent = some 0 ∧
    (calculate_trend [-4, -6] (-10)).direction = "stable" ∧
    ([(-4 : ℚ), -6].sum / (([(-4 : ℚ), -6].length : ℕ) : ℚ) = -5) ∧
    (((-10 : ℚ) - (-5)) / (-5) * 100 = 100) ∧
    ((0 : ℚ) ≠ 100) := by
  refine ⟨?_, ?_, by norm_num, by norm_num, by norm_num⟩ <;>
  · simp only [calculate_trend, round2, roundHalfEven]
    norm_num

/-- Claim C4 amended: change equals currentValue - avgHistorical and
changePercent equals change / avgHistorical * 100 (each rounded to 2
decimal places as stored) for every window whose mean is strictly
positive; changePercent is forced to 0 whenever avgHistorical ≤ 0,
including negative means. -/
theorem claim_C4_amended (values : List ℚ) (current : ℚ) (h : 2 ≤ values.length) :
    (calculate_trend values current).change =
      round2 (current - values.sum / (values.length : ℚ)) ∧
    (calculate_trend values current).change_percent =
      some (round2 (if values.sum / (values.length : ℚ) > 0 then
        (current - values.sum / (values.length : ℚ)) / (values.sum / (values.length : ℚ)) * 100
      else 0)) ∧
    (calculate_trend values current).average_historical =
      some (round2 (values.sum / (values.length : ℚ))) := by
  have h' : ¬ (values.length < 2) := Nat.not_lt.mpr h
  simp [calculate_trend, h']

/-- Claim C4 amended, witnessed at the window [1, 3] with current value
4: mean 2, change 2, changePercent 100. -/
theorem claim_C4_witness :
    2 ≤ ([(1 : ℚ), 3] : List ℚ).length ∧
    ((calculate_trend [1, 3] 4).change =
      round2 ((4 : ℚ) - ([(1 : ℚ), 3] : List ℚ).sum / ((([(1 : ℚ), 3] : List ℚ).length : ℕ) : ℚ)) ∧
    (calculate_trend [1, 3] 4).change_percent =
      some (round2 (if ([(1 : ℚ), 3] : List ℚ).sum / ((([(1 : ℚ), 3] : List ℚ).length : ℕ) : ℚ) > 0 then
        ((4 : ℚ) - ([(1 : ℚ), 3] : List ℚ).sum / ((([(1 : ℚ), 3] : List ℚ).length : ℕ) : ℚ)) /
          (([(1 : ℚ), 3] : List ℚ).sum / ((([(1 : ℚ), 3] : List ℚ).length : ℕ) : ℚ)) * 100
      else 0)) ∧
    (calculate_trend [1, 3] 4).average_historical =
      some (round2 (([(1 : ℚ), 3] : List ℚ).sum / ((([(1 : ℚ), 3] : List ℚ).length : ℕ) : ℚ)))) :=
  ⟨by decide, claim_C4_amended [1, 3] 4 (by decide)⟩

/-- Claim C5: the history step is total - a fetch error is converted
locally into has_history = false with an embedded diagnostic message,
and zero prior records give has_history = false with an explanatory
message; historyModel returns a plain HistoryResult (not an Except), so
no input or failure case propagates an exception to the caller. -/
theorem claim_C5_history_total (e : String) :
    (historyModel (.error e)).has_history = false ∧
    (historyModel (.error e)).summary.message = some ("Error retrieving history: " ++ e) ∧
    (historyModel (.error e)).recent_analyses = [] ∧
    (historyModel (.ok [])).has_history = false ∧
    (historyModel (.ok [])).summary.message = some "No historical data available" :=
  ⟨rfl, rfl, rfl, rfl, rfl⟩

/-- Claim C10: with exactly one persisted record the history step
returns has_history = true (not false), an empty trends map, and
time_span_days = 1; so has_history = true implies neither a trend entry
nor a window of more than one record. -/
theorem claim_C10_single_record (r : PlantAnalysisRec) :
    (historyModel (.ok [r])).has_history = true ∧
    (historyModel (.ok [r])).trends =
      { humidity := none, light := none, temperature := none } ∧
    (historyModel (.ok [r])).summary.time_span_days = some 1 ∧
    (historyModel (.ok [r])).summary.total_analyses = 1 :=
  ⟨rfl, historyModel_trends_single r, rfl, rfl⟩

/-- Claim C3 counterexample: the history step receives only plant_id
and limit - the in-flight reading is not an input.  For the fetched
window with humidities 55, 65, 70 (newest first) and the spec's
in-flight reading humidity = 50, the code's humidity trend compares the
newest FETCHED value 55 against the mean 67.5 of the two older fetched
values (change -12.5), whereas the claim's computation - in-flight 50
against the mean 63.33 of all fetched values - gives change -13.33 and
average 63.33: neither the change nor the baseline matches the claim. -/
theorem claim_C3_counterexample :
    (historyModel (.ok [⟨3, 55, 1200, 22, "OK"⟩, ⟨2, 65, 1200, 22, "OK"⟩,
        ⟨1, 70, 1200, 22, "OK"⟩])).trends.humidity =
      some { direction := "decreasing", change := -25/2, change_percent := some (-463/25),
             average_historical := some (135/2), period := "2 analyses" } ∧
    round2 (specTrendChange [70, 65, 55] 50) = -1333/100 ∧
    round2 (specAvgHistorical [70, 65, 55]) = 6333/100 ∧
    ((-25 : ℚ)/2 ≠ -1333/100) ∧ ((135 : ℚ)/2 ≠ 6333/100) := by
  refine ⟨?_, ?_, ?_, by norm_num, by norm_num⟩
  · rw [historyModel_trends_cons]
    simp only [List.map_cons, List.map_nil, List.reverse_cons, List.reverse_nil,
      List.nil_append, List.cons_append]
    simp only [calculate_trend, round2, roundHalfEven]
    norm_num
    refine ⟨fun h => absurd h ?_, rfl⟩
    rw [abs_div]
    norm_num
  · simp only [specTrendChange, round2, roundHalfEven]
    norm_num [List.sum_cons, List.sum_nil]
  · simp only [specAvgHistorical, round2, roundHalfEven]
    norm_num [List.sum_cons, List.sum_nil]

/-- Claim C3 amended: when at least two records are fetched, the Trend
Analyzer computes each metric's trend of the most recent FETCHED
record's value against the mean of the strictly older fetched values;
the current in-flight reading is not an input to the history step (it
has not been persisted yet, so it is also never part of the fetched
set) and plays no role in the computation. -/
theorem claim_C3_amended (r0 r1 : PlantAnalysisRec) (rest : List PlantAnalysisRec) :
    (historyModel (.ok (r0 :: r1 :: rest))).trends.humidity =
      some (calculate_trend (((r1 :: rest).map (·.humidity)).reverse) r0.humidity) ∧
    (historyModel (.ok (r0 :: r1 :: rest))).trends.light =
      some (calculate_trend (((r1 :: rest).map (·.light)).reverse) r0.light) ∧
    (historyModel (.ok (r0 :: r1 :: rest))).trends.temperature =
      some (calculate_trend (((r1 :: rest).map (·.temperature)).reverse) r0.temperature) := by
  rw [historyModel_trends_cons]
  exact ⟨rfl, rfl, rfl⟩

/-- Claim C9: a per-metric trend entry is present in the trends map
exactly when at least 2 fetched historical points exist for that metric
(the in-flight reading never being among them); and the entry is a
computed trend (not the insufficient_data placeholder) exactly when at
least 2 points exist besides the one the code uses as the current
value, i.e. at least 3 fetched records. -/
theorem claim_C9_trend_presence (rs : List PlantAnalysisRec) :
    ((historyModel (.ok rs)).trends.humidity ≠ none ↔ 2 ≤ rs.length) ∧
    ((historyModel (.ok rs)).trends.light ≠ none ↔ 2 ≤ rs.length) ∧
    ((historyModel (.ok rs)).trends.temperature ≠ none ↔ 2 ≤ rs.length) ∧
    ((∃ t, (historyModel (.ok rs)).trends.humidity = some t ∧
        t.direction ≠ "insufficient_data") ↔ 3 ≤ rs.length) := by
  match rs with
  | [] =>
    refine ⟨?_, ?_, ?_, ?_⟩ <;> simp [historyModel]
  | [r] =>
    refine ⟨?_, ?_, ?_, ?_⟩ <;> simp [historyModel_trends_single]
  | r0 :: r1 :: rest =>
    rw [historyModel_trends_cons]
    refine ⟨by simp, by simp, by simp, ?_⟩
    constructor
    · rintro ⟨t, ht, hdir⟩
      simp only [Option.some.injEq] at ht
      subst ht
      by_contra hlen
      have hshort : ((r1 :: rest).map (·.humidity)).reverse.length < 2 := by
        simp only [List.length_reverse, List.length_map, List.length_cons]
        simp only [List.length_cons] at hlen
        omega
      rw [calculate_trend_of_short _ _ hshort] at hdir
      exact hdir rfl
    · intro hlen
      refine ⟨_, rfl, ?_⟩
      have hlong : 2 ≤ ((r1 :: rest).map (·.humidity)).reverse.length := by
        simp only [List.length_reverse, List.length_map, List.length_cons]
        simp only [List.length_cons] at hlen
        omega
      rcases calculate_trend_direction_cases _ r0.humidity hlong with h | h | h <;>
        · rw [h]; decide

/-- Claim C7 counterexample: on the empty response (no braces) the
synthesized candidate has status OK and message equal to the raw text,
but its action sentinel is the literal string "aucune" (French for
"none"), not the string "none" the claim states. -/
theorem claim_C7_counterexample :
    objGet (candidateResult "" (fun _ => none)) "status" = some (.jstr "OK") ∧
    objGet (candidateResult "" (fun _ => none)) "message" = some (.jstr "") ∧
    objGet (candidateResult "" (fun _ => none)) "action" = some (.jstr "aucune") ∧
    "aucune" ≠ "none" :=
  ⟨rfl, rfl, rfl, by decide⟩

/-- Claim C7 amended: for every raw output without braces, or whose
brace-delimited slice fails JSON decoding, the normalizer synthesizes a
candidate with status OK, message equal to the raw text verbatim, and
action equal to the sentinel string "aucune" (French for "none"). -/
theorem claim_C7_amended (response : String) (loads : String → Option JObj)
    (h : hasBraces response = false ∨ loads (sliceJson response) = none) :
    candidateResult response loads = fallbackResult response ∧
    objGet (candidateResult response loads) "status" = some (.jstr "OK") ∧
    objGet (candidateResult response loads) "message" = some (.jstr response) ∧
    objGet (candidateResult response loads) "action" = some (.jstr "aucune") := by
  have hc : candidateResult response loads = fallbackResult response := by
    rcases h with h | h
    · simp [candidateResult, h]
    · simp [candidateResult, h]
  exact ⟨hc, by rw [hc]; rfl, by rw [hc]; rfl, by rw [hc]; rfl⟩

/-- Claim C7 amended, witnessed on a brace-free response. -/
theorem claim_C7_witness :
    (hasBraces "All good, no issues detected" = false ∨
      ((fun _ => none) : String → Option JObj)
        (sliceJson "All good, no issues detected") = none) ∧
    (candidateResult "All good, no issues detected" (fun _ => none) =
        fallbackResult "All good, no issues detected" ∧
      objGet (candidateResult "All good, no issues detected" (fun _ => none)) "status" =
        some (.jstr "OK") ∧
      objGet (candidateResult "All good, no issues detected" (fun _ => none)) "message" =
        some (.jstr "All good, no issues detected") ∧
      objGet (candidateResult "All good, no issues detected" (fun _ => none)) "action" =
        some (.jstr "aucune")) :=
  ⟨Or.inl rfl, claim_C7_amended "All good, no issues detected" (fun _ => none) (Or.inl rfl)⟩

/-- Claim C8: the coercion of a decoded action list of strings produces
exactly "No action needed" for the empty list, "Take action: x" for a
one-element list, and "Take multiple actions: a, b, ... and z" (all but
the last joined by comma-space, then " and " before the last) for two
or more elements; in particular ["water", "light"] gives
"Take multiple actions: water and light". -/
theorem claim_C8_action_list_coercion :
    coerceList [] = .ok "No action needed" ∧
    (∀ x : String, coerceList [.jstr x] = .ok ("Take action: " ++ x)) ∧
    (∀ (x y : String) (mid : List String),
      coerceList ((x :: mid ++ [y]).map JValue.jstr) =
        .ok ("Take multiple actions: " ++ String.intercalate ", " (x :: mid) ++ " and " ++ y)) ∧
    coerceList [.jstr "water", .jstr "light"] = .ok "Take multiple actions: water and light" :=
  ⟨rfl, fun _ => rfl, fun x y mid => coerceList_map_jstr_multi x y mid, rfl⟩

/-- Claim C6: when a run reaches normalization successfully, the
best-effort persistence step never alters, suppresses or replaces the
caller-visible result: whatever the save outcome (in particular a
failure), the returned result is exactly the normalized response. -/
theorem claim_C6_save_failure_result_unchanged (response : String)
    (loads : String → Option JObj) (litEval : String → Option (List JValue))
    (save : AnalysisResponse → Except String Unit) (resp : AnalysisResponse)
    (h : normalize response loads litEval = .ok resp) :
    (processResponseAndSave response loads litEval save).1 = .ok resp := by
  unfold processResponseAndSave
  rw [h]
  cases hsave : save resp <;> simp [hsave]

/-- Claim C6, witnessed on a run whose normalization succeeds and whose
database write fails. -/
theorem claim_C6_witness :
    normalize "Conditions are fine" (fun _ => none) (fun _ => none) =
      .ok { status := "OK", message := "Conditions are fine", action := "aucune" } ∧
    (processResponseAndSave "Conditions are fine" (fun _ => none) (fun _ => none)
      (fun _ => .error "MySQL server has gone away")).1 =
      .ok { status := "OK", message := "Conditions are fine", action := "aucune" } :=
  ⟨rfl, claim_C6_save_failure_result_unchanged "Conditions are fine" (fun _ => none)
    (fun _ => none) (fun _ => .error "MySQL server has gone away")
    { status := "OK", message := "Conditions are fine", action := "aucune" } rfl⟩

/-- Claim C1 counterexample: normalization does raise for some inputs.
A decoded object whose status is the arbitrary string "WARNING" raises
a pydantic ValidationError (AnalysisResponse.status is the closed
Literal OK | ALERT), and a decoded action list [1, 2] of non-strings
raises a TypeError from the comma join - in both cases no TypedResult
is returned. -/
theorem claim_C1_counterexample :
    normalize "\x7b\"status\": \"WARNING\"\x7d" loadsStatusW (fun _ => none) =
      .error "ValidationError: status must be OK or ALERT" ∧
    normalize "\x7b\"action\": [1, 2]\x7d" loadsActionNums (fun _ => none) =
      .error "TypeError: sequence item: expected str instance" :=
  ⟨rfl, rfl⟩

/-- Claim C1 amended: normalization completes and returns a fully
populated TypedResult for every input string - including the empty
string, non-JSON text, stringified-list actions and doubly-quoted
scalar actions - provided the decoded object's status field (when
present) is "OK" or "ALERT", its message field (when present) is a
string, and its action field, when it is a list of two or more
elements, has only strings before its last element. -/
theorem claim_C1_amended (response : String) (loads : String → Option JObj)
    (litEval : String → Option (List JValue))
    (hstatus : (objGet (candidateResult response loads) "status").getD (.jstr "OK") = .jstr "OK" ∨
      (objGet (candidateResult response loads) "status").getD (.jstr "OK") = .jstr "ALERT")
    (hmessage : ∃ m, (objGet (candidateResult response loads) "message").getD
      (.jstr "Analysis completed") = .jstr m)
    (haction : actionListSafe ((objGet (candidateResult response loads) "action").getD
      (.jstr "No action needed"))) :
    ∃ r, normalize response loads litEval = .ok r := by
  have hca : ∃ s, coerceAction ((objGet (candidateResult response loads) "action").getD
      (.jstr "No action needed")) litEval = .ok s := by
    match hv : (objGet (candidateResult response loads) "action").getD (.jstr "No action needed") with
    | .jarr xs =>
      rw [hv] at haction
      obtain ⟨out, hout⟩ := coerceList_ok_of_safe xs haction
      exact ⟨_, coerceAction_ok_of_head_ok _ litEval out (by simp [coerceActionHead, hout])⟩
    | .jstr s => exact ⟨_, coerceAction_ok_of_head_ok _ litEval s rfl⟩
    | .jnull => exact ⟨_, coerceAction_ok_of_head_ok _ litEval _ rfl⟩
    | .jbool b => exact ⟨_, coerceAction_ok_of_head_ok _ litEval _ rfl⟩
    | .jnum n => exact ⟨_, coerceAction_ok_of_head_ok _ litEval _ rfl⟩
    | .jobj fs => exact ⟨_, coerceAction_ok_of_head_ok _ litEval _ rfl⟩
  obtain ⟨s, hs⟩ := hca
  obtain ⟨m, hm⟩ := hmessage
  rcases hstatus with h | h
  · refine ⟨{ status := "OK", message := m, action := s }, ?_⟩
    simp only [normalize, hs, hm, h]
    rfl
  · refine ⟨{ status := "ALERT", message := m, action := s }, ?_⟩
    simp only [normalize, hs, hm, h]
    rfl

/-- Claim C1 amended, witnessed on a braced alert response whose action
is the string list ["water", "light"]. -/
theorem claim_C1_witness :
    ((objGet (candidateResult "\x7b\"status\": \"ALERT\", \"message\": \"Soil too dry\", \"action\": [\"water\", \"light\"]\x7d" loadsAlert) "status").getD (.jstr "OK") = .jstr "OK" ∨
      (objGet (candidateResult "\x7b\"status\": \"ALERT\", \"message\": \"Soil too dry\", \"action\": [\"water\", \"light\"]\x7d" loadsAlert) "status").getD (.jstr "OK") = .jstr "ALERT") ∧
    (∃ m, (objGet (candidateResult "\x7b\"status\": \"ALERT\", \"message\": \"Soil too dry\", \"action\": [\"water\", \"light\"]\x7d" loadsAlert) "message").getD (.jstr "Analysis completed") = .jstr m) ∧
    actionListSafe ((objGet (candidateResult "\x7b\"status\": \"ALERT\", \"message\": \"Soil too dry\", \"action\": [\"water\", \"light\"]\x7d" loadsAlert) "action").getD (.jstr "No action needed")) ∧
    ∃ r, normalize "\x7b\"status\": \"ALERT\", \"message\": \"Soil too dry\", \"action\": [\"water\", \"light\"]\x7d" loadsAlert (fun _ => none) = .ok r := by
  have h1 : (objGet (candidateResult "\x7b\"status\": \"ALERT\", \"message\": \"Soil too dry\", \"action\": [\"water\", \"light\"]\x7d" loadsAlert) "status").getD (.jstr "OK") = .jstr "OK" ∨
      (objGet (candidateResult "\x7b\"status\": \"ALERT\", \"message\": \"Soil too dry\", \"action\": [\"water\", \"light\"]\x7d" loadsAlert) "status").getD (.jstr "OK") = .jstr "ALERT" :=
    Or.inr rfl
  have h2 : ∃ m, (objGet (candidateResult "\x7b\"status\": \"ALERT\", \"message\": \"Soil too dry\", \"action\": [\"water\", \"light\"]\x7d" loadsAlert) "message").getD (.jstr "Analysis completed") = .jstr m :=
    ⟨"Soil too dry", rfl⟩
  have h3 : actionListSafe ((objGet (candidateResult "\x7b\"status\": \"ALERT\", \"message\": \"Soil too dry\", \"action\": [\"water\", \"light\"]\x7d" loadsAlert) "action").getD (.jstr "No action needed")) := by
    show ([JValue.jstr "water", JValue.jstr "light"].length ≤ 1 ∨
      (∀ y ∈ [JValue.jstr "water", JValue.jstr "light"].dropLast, ∃ s, y = JValue.jstr s))
    right
    intro y hy
    simp only [List.dropLast, List.mem_singleton] at hy
    exact ⟨"water", hy⟩
  exact ⟨h1, h2, h3, claim_C1_amended _ loadsAlert (fun _ => none) h1 h2 h3⟩

end Carmen
